import Mathlib

/-!
Shallow embedding of `openrobot/api_wrapper/_sync.py` (class `SyncClient`):
the constructor (lines 48-60), the authorization-header builder (lines 64-69)
and the request dispatcher `_request` (lines 71-138).

Python strings that undergo slicing (`url[1:]`, `url[4:]`, `startswith`) are
modelled as lists of characters; header dicts as association lists; the JSON
body `r.json()` as an abstract type `β`; exceptions as constructors of an
`Outcome` type.  The HTTP transport is a parameter `server : Nat → Response β`
giving the response to the `k`-th request issued by the call.
-/

namespace OpenRobotAPI

/-- Python `str` values that get sliced are modelled as lists of characters. -/
abbrev Str := List Char

/-- A Python header dict, modelled as an association list. -/
abbrev Headers := List (String × String)

/-- Python truthiness of an optional string: `None` and `''` are falsy. -/
def pyTruthy : Option String → Bool
  | none => false
  | some s => !(s == "")

/-- Python `url.startswith(pre)` on the character-list model. -/
def startswith : Str → Str → Bool
  | [], _ => true
  | _ :: _, [] => false
  | p :: ps, c :: cs => p == c && startswith ps cs

/-- The state stored by `SyncClient.__init__` (lines 56-60): the token, the
rate-limit toggle, and the try count (`none` models Python `None`, meaning
unbounded). -/
structure SyncClient where
  token : String
  handle_ratelimit : Bool
  tries : Option Int
  deriving DecidableEq

/-- Result of running `SyncClient.__init__`: either the `NoTokenProvided`
exception, or a constructed client together with a flag recording whether the
`I-Am-Testing` warning was emitted. -/
inductive InitResult where
  | noTokenProvided : InitResult
  | ok : Bool → SyncClient → InitResult
  deriving DecidableEq

/-- `SyncClient.__init__` (lines 48-60).  `token` is the caller's argument
(the Python default corresponds to `some ("I-Am-Testing")`, an explicit
`token=None` to `none`); `fileToken` is what `get_token_from_file()` would
return.  Line 49 is Python `or` (first operand if truthy, else the second);
line 51 raises `NoTokenProvided` on a falsy result; line 53 warns when the
token equals the placeholder and warnings are not suppressed; line 56 stores
`str(token)`. -/
def SyncClient.init (token fileToken : Option String)
    (ignore_warning handle_ratelimit : Bool) (tries : Option Int) : InitResult :=
  let tok := if pyTruthy token then token else fileToken
  if !(pyTruthy tok) then InitResult.noTokenProvided
  else InitResult.ok (decide (tok = some ("I-Am-Testing") ∧ ignore_warning = false))
    ⟨tok.getD (""), handle_ratelimit, tries⟩

/-- `SyncClient._get_authorization_headers` (lines 64-69) in the `header=True`
form used by `_request` (line 74): the dict `{'Authorization': token}`. -/
def SyncClient.authHeaders (c : SyncClient) : Headers :=
  [("Authorization", c.token)]

/-- `SyncClient._get_authorization_headers` (lines 64-69) with `header=False`:
the query-string form `f'token={token}'`. -/
def SyncClient.authQueryString (c : SyncClient) : String :=
  ("token=") ++ c.token

/-- Lines 74-79 of `_request`: header handling.  When the caller passed a
truthy (non-empty) dict, line 76 pops `'headers'` out of `kwargs` and line 77
then evaluates `kwargs['headers']` again, which raises `KeyError`; in every
other case (`headers` absent, empty, or not a dict) the credential header dict
is installed as the headers.  `Except.error ()` models that `KeyError`. -/
def mergeHeaders (c : SyncClient) (callerHeaders : Option Headers) : Except Unit Headers :=
  match callerHeaders with
  | some h => if h.isEmpty then Except.ok c.authHeaders else Except.error ()
  | none => Except.ok c.authHeaders

/-- The base URL prepended at line 92. -/
def baseUrl : Str := ("https://api.openrobot.xyz/api").toList

/-- Lines 83-84: `if not url.startswith('/'): url = url[1:]` — the first
character is dropped when the url does NOT begin with a slash. -/
def stripSlashStep (url : Str) : Str :=
  if startswith (("/").toList) url then url else url.drop 1

/-- Lines 88-89: `if not url.startswith('api/'): url = url[4:]` — four
characters are dropped when the url does NOT begin with `api/`. -/
def stripApiStep (url : Str) : Str :=
  if startswith (("api/").toList) url then url else url.drop 4

/-- The characters of the bracket expression
`[api.openrobot.xyz|lyrics.ayomerdeka.com]` in the regex at line 91.  In a
regular expression this is a character class (a set of single characters,
`|` and `.` included literally), not an alternation of the two hostnames. -/
def urlClassChars : Str := ("api.openrobot.xyz|lyrics.ayomerdeka.com").toList

/-- Line 91's `re.match(r'^http[s]?://[api.openrobot.xyz|lyrics.ayomerdeka.com]/', url)`:
`http`, an optional `s`, `://`, then ONE character of the class, then `/`. -/
def matchesUrlRegex (url : Str) : Bool :=
  let rest : Option Str :=
    if startswith (("https://").toList) url then some (url.drop 8)
    else if startswith (("http://").toList) url then some (url.drop 7)
    else none
  match rest with
  | some (c :: d :: _) => urlClassChars.contains c && d == '/'
  | _ => false

/-- Lines 83-94: URL normalisation and validation.  `Except.error ()` models
`TypeError('URL is not a valid HTTP/HTTPs URL.')`.  Branch order as in the
source: the base URL is prepended when the regex does NOT match AND
`no_url_regex` was NOT passed; in every other case the `TypeError` is
raised. -/
def computeUrl (url : Str) (no_url_regex : Bool) : Except Unit Str :=
  let u := stripApiStep (stripSlashStep url)
  if matchesUrlRegex u = false ∧ no_url_regex = false then Except.ok (baseUrl ++ u)
  else Except.error ()

/-- One HTTP response: `r.status_code`, the optional integer value of
`r.headers['Retry-After']`, and the decoded body `r.json()`. -/
structure Response (β : Type) where
  status_code : Nat
  retryAfterHeader : Option Nat
  body : β
  deriving DecidableEq

/-- How one call of `_request` ends: a `return` (of the decoded body or of the
raw response) or one of the raised exceptions. -/
inductive Outcome (β : Type) where
  | json : β → Outcome β  -- `return js`
  | raw : Response β → Outcome β  -- `return r`
  | forbidden : Response β → β → Outcome β  -- `raise Forbidden(r, js)` (line 110)
  | badRequest : Response β → β → Outcome β  -- line 112
  | internalServerError : Response β → β → Outcome β  -- line 114
  | tooManyRequests : Response β → β → Outcome β  -- lines 117 and 138
  | keyErrorRetryAfter : Outcome β  -- line 122
  | apiError : Response β → β → Outcome β  -- `raise OpenRobotAPIError` (line 136)
  | typeErrorBadUrl : Outcome β  -- line 94
  | keyErrorHeaderMerge : Outcome β  -- line 77 (`kwargs['headers']` after the pop)
  | nameErrorUnboundLocal : Outcome β  -- line 138 when `r`, `js` were never assigned
  deriving DecidableEq

/-- The `while` loop of `_request` (lines 98-136) followed by the final raise
(line 138), for a bounded try count.  `server k` is the response to the `k`-th
request; `fuel` is the current value of `tries`; `last` is the response bound
by the previous iteration, if any (Python leaks the loop variables `r`, `js`
into line 138).  Inside an iteration `tries > 0`, so `if tries: tries -= 1`
(lines 124-125) always decrements.  Returns the sleep durations performed, the
number of requests issued, and the outcome. -/
def requestLoop {β : Type} (hr : Bool) (return_on : List Nat) (raw : Bool)
    (server : Nat → Response β) :
    Nat → Option (Response β) → Nat → List Nat × Nat × Outcome β
  | _, last, 0 =>
    ([], 0, match last with
      | none => Outcome.nameErrorUnboundLocal
      | some r => Outcome.tooManyRequests r r.body)
  | attempt, _, fuel + 1 =>
    let r := server attempt
    let js := r.body
    if r.status_code ∈ return_on then
      ([], 1, if raw then Outcome.raw r else Outcome.json js)
    else if r.status_code = 403 then ([], 1, Outcome.forbidden r js)
    else if r.status_code = 400 then ([], 1, Outcome.badRequest r js)
    else if r.status_code = 500 then ([], 1, Outcome.internalServerError r js)
    else if r.status_code = 429 then
      if hr = false then ([], 1, Outcome.tooManyRequests r js)
      else
        match r.retryAfterHeader with
        | none => ([], 1, Outcome.keyErrorRetryAfter)
        | some n =>
          let rest := requestLoop hr return_on raw server (attempt + 1) (some r) fuel
          (n :: rest.1, rest.2.1 + 1, rest.2.2)
    else if 200 ≤ r.status_code ∧ r.status_code < 300 then
      ([], 1, if raw then Outcome.raw r else Outcome.json js)
    else ([], 1, Outcome.apiError r js)

/-- The keyword arguments of `_request` that its body inspects: a possible
caller `headers` dict, the popped `return_on` (default `[]`), `raw` (default
`False`) and `no_url_regex` (default `False`). -/
structure Kwargs where
  headers : Option Headers
  return_on : List Nat
  raw : Bool
  no_url_regex : Bool
  deriving DecidableEq

/-- What one call of `_request` did: the headers it settled on (none if the
merge raised), the url passed to `s.request` (none if raised before the loop),
the sleeps performed, the number of requests issued, and the outcome. -/
structure DispatchResult (β : Type) where
  mergedHeaders : Option Headers
  effectiveUrl : Option Str
  sleeps : List Nat
  requests : Nat
  outcome : Outcome β
  deriving DecidableEq

/-- `SyncClient._request` (lines 71-138).  Phases in source order: header
handling (74-79), url normalisation/validation (83-94), `tries` conversion
(line 96) and the retry loop (98-138).  Returns `none` exactly when the loop
is reached with `c.tries = none`: Python then iterates with no bound and may
never terminate, which a total function cannot model. -/
def SyncClient.request {β : Type} (c : SyncClient) (url : Str) (k : Kwargs)
    (server : Nat → Response β) : Option (DispatchResult β) :=
  match mergeHeaders c k.headers with
  | Except.error _ => some ⟨none, none, [], 0, Outcome.keyErrorHeaderMerge⟩
  | Except.ok hs =>
    match computeUrl url k.no_url_regex with
    | Except.error _ => some ⟨some hs, none, [], 0, Outcome.typeErrorBadUrl⟩
    | Except.ok u =>
      match c.tries with
      | none => none
      | some t =>
        let res := requestLoop c.handle_ratelimit k.return_on k.raw server 0 none t.toNat
        some ⟨some hs, some u, res.1, res.2.1, res.2.2⟩

/-!  A helper lemma shared by several claims: running the loop against a
server that answers 429 with a `Retry-After` header on every attempt. -/

/-- With rate-limit handling enabled, on a server that answers every attempt
with 429 and `Retry-After: ra j`, `t + 1` remaining tries produce exactly
`t + 1` requests and the corresponding sleeps, ending in `TooManyRequests`
carrying the last response. -/
lemma requestLoop_all429 {β : Type} (ro : List Nat) (raw : Bool)
    (server : Nat → Response β) (ra : Nat → Nat)
    (hsrv : ∀ j, (server j).status_code = 429 ∧ (server j).retryAfterHeader = some (ra j))
    (hro : (429 : Nat) ∉ ro) :
    ∀ (t a : Nat) (last : Option (Response β)),
      requestLoop true ro raw server a last (t + 1) =
        ((List.range (t + 1)).map (fun j => ra (a + j)), t + 1,
          Outcome.tooManyRequests (server (a + t)) (server (a + t)).body) := by
  intro t
  induction t with
  | zero =>
    intro a last
    have h1 := (hsrv a).1
    have h2 := (hsrv a).2
    simp only [requestLoop]
    simp [h1, h2, hro, List.range_succ]
  | succ s ih =>
    intro a last
    have h1 := (hsrv a).1
    have h2 := (hsrv a).2
    rw [requestLoop]
    simp only [h1, h2]
    rw [ih (a + 1) (some (server a))]
    have hidx : a + 1 + s = a + (s + 1) := by omega
    have hlist : (List.range (s + 1 + 1)).map (fun j => ra (a + j)) =
        ra a :: (List.range (s + 1)).map (fun j => ra (a + 1 + j)) := by
      rw [List.range_succ_eq_map, List.map_cons, List.map_map]
      refine congrArg₂ _ (by simp) ?_
      refine List.map_congr_left ?_
      intro j _
      exact congrArg ra (by omega)
    simp [hro, hlist, hidx]

/-- C1: the claim says a target matching one of the two allowed hosts is used
unchanged, and a target matching neither host (without `no_url_regex`) raises
a malformed-URL error before any request.  The code does the opposite: the
branch at lines 91-94 is inverted, so the allowed-host URL
`https://api.openrobot.xyz/api/speech` is mangled by the two strips, prefixed
with the base URL and used; the foreign-host URL `https://untrusted.example/x`
raises nothing and a request IS issued (count 1); and passing the
skip-validation flag `no_url_regex` is precisely what triggers the
`TypeError`. -/
theorem c1_url_validation_branch_inverted :
    computeUrl (("https://api.openrobot.xyz/api/speech").toList) false =
      Except.ok (("https://api.openrobot.xyz/api://api.openrobot.xyz/api/speech").toList) ∧
    (("https://api.openrobot.xyz/api://api.openrobot.xyz/api/speech").toList : Str) ≠
      (("https://api.openrobot.xyz/api/speech").toList) ∧
    computeUrl (("https://untrusted.example/x").toList) false =
      Except.ok (("https://api.openrobot.xyz/api://untrusted.example/x").toList) ∧
    SyncClient.request ⟨("T"), true, some 5⟩ (("https://untrusted.example/x").toList)
      ⟨none, [], false, false⟩ (fun _ => (⟨200, none, 0⟩ : Response Nat)) =
      some ⟨some [(("Authorization"), ("T"))],
        some (("https://api.openrobot.xyz/api://untrusted.example/x").toList), [], 1,
        Outcome.json 0⟩ ∧
    computeUrl (("https://api.openrobot.xyz/api/speech").toList) true = Except.error () :=
  ⟨rfl, by decide, rfl, by decide, rfl⟩

/-- C2 counterexample: a caller-supplied headers dict that sets
`Authorization` is not kept and merged — the call fails during merging with a
`KeyError` (line 77 reads `kwargs['headers']` after line 76 popped it) before
any request is issued. -/
theorem c2_counterexample_headers_merge_keyerror :
    SyncClient.request ⟨("T"), true, some 5⟩ (("/api/speech").toList)
      ⟨some [(("Authorization"), ("X"))], [], false, false⟩
      (fun _ => (⟨200, none, 0⟩ : Response Nat)) =
      some ⟨none, none, [], 0, Outcome.keyErrorHeaderMerge⟩ := by
  decide

/-- C2 (amended): whenever the caller supplies a non-empty headers dict,
dispatch raises `KeyError` during merging, with no request issued; the
credential-derived `Authorization` header is installed only when the caller
supplied no headers dict. -/
theorem c2_headers_merge_behavior {β : Type} (c : SyncClient) (url : Str) (k : Kwargs)
    (server : Nat → Response β) :
    (∀ h : Headers, k.headers = some h → h ≠ [] →
      c.request url k server = some ⟨none, none, [], 0, Outcome.keyErrorHeaderMerge⟩) ∧
    (k.headers = none →
      mergeHeaders c k.headers = Except.ok [(("Authorization"), c.token)]) := by
  constructor
  · intro h hk hne
    have hmerge : mergeHeaders c k.headers = Except.error () := by
      rw [hk]
      cases h with
      | nil => exact absurd rfl hne
      | cons p t => simp [mergeHeaders]
    simp [SyncClient.request, hmerge]
  · intro hk
    rw [hk]
    simp [mergeHeaders, SyncClient.authHeaders]

theorem c2_headers_merge_behavior_witness :
    SyncClient.request ⟨("T"), true, some 5⟩ (("/api/x").toList)
      ⟨some [(("Accept"), ("json"))], [], false, false⟩
      (fun _ => (⟨200, none, 0⟩ : Response Nat)) =
      some ⟨none, none, [], 0, Outcome.keyErrorHeaderMerge⟩ :=
  (c2_headers_merge_behavior ⟨("T"), true, some 5⟩ (("/api/x").toList)
    ⟨some [(("Accept"), ("json"))], [], false, false⟩
    (fun _ => (⟨200, none, 0⟩ : Response Nat))).1 [(("Accept"), ("json"))] rfl (by decide)

/-- C3 counterexample: the claim strips a leading slash IF PRESENT, which
would send `api/lyrics` to the canonical
`https://api.openrobot.xyz/api/lyrics`; the code (line 83) drops the first
character when the slash is ABSENT, so the transmitted URL is the mangled
`https://api.openrobot.xyz/apiyrics`. -/
theorem c3_counterexample_relative_path_mangled :
    SyncClient.request ⟨("T"), true, some 5⟩ (("api/lyrics").toList) ⟨none, [], false, false⟩
      (fun _ => (⟨200, none, 0⟩ : Response Nat)) =
      some ⟨some [(("Authorization"), ("T"))],
        some (("https://api.openrobot.xyz/apiyrics").toList), [], 1, Outcome.json 0⟩ ∧
    (("https://api.openrobot.xyz/apiyrics").toList : Str) ≠
      (("https://api.openrobot.xyz/api/lyrics").toList) :=
  ⟨by decide, by decide⟩

/-- C3 (amended): the first strip drops a character when the target does NOT
begin with a slash; for targets of the form `/api/<endpoint>` — the form every
wrapper method passes — the steps leave `/<endpoint>` and prepending the base
URL yields exactly the canonical `https://api.openrobot.xyz/api/<endpoint>`. -/
theorem c3_slash_api_paths_normalize_canonically (e : Str) :
    computeUrl ((("/api/").toList) ++ e) false =
      Except.ok ((("https://api.openrobot.xyz/api/").toList) ++ e) := rfl

/-- C4: with rate-limit handling enabled, a bounded try count `N ≥ 1` and a
server answering 429 with a `Retry-After` header on every attempt, dispatch
sleeps and retries exactly `N` times and then raises `TooManyRequests`
carrying the last seen response and its body — in particular the loop
terminates for every bounded configuration. -/
theorem c4_bounded_429_retries_then_raise {β : Type} (c : SyncClient) (url : Str)
    (k : Kwargs) (server : Nat → Response β) (ra : Nat → Nat) (hs : Headers) (u : Str)
    (N : Nat) (hm : mergeHeaders c k.headers = Except.ok hs)
    (hu : computeUrl url k.no_url_regex = Except.ok u)
    (ht : c.tries = some (N : Int)) (hN : 0 < N)
    (hhr : c.handle_ratelimit = true)
    (hro : (429 : Nat) ∉ k.return_on)
    (hsrv : ∀ j, (server j).status_code = 429 ∧ (server j).retryAfterHeader = some (ra j)) :
    c.request url k server =
      some ⟨some hs, some u, (List.range N).map ra, N,
        Outcome.tooManyRequests (server (N - 1)) (server (N - 1)).body⟩ := by
  obtain ⟨t, rfl⟩ : ∃ t, N = t + 1 := ⟨N - 1, by omega⟩
  simp only [SyncClient.request, hm, hu, ht, hhr]
  have hcast : ((((t + 1 : Nat) : Int)).toNat) = t + 1 := by omega
  rw [hcast, requestLoop_all429 k.return_on k.raw server ra hsrv hro t 0 none]
  simp

theorem c4_bounded_429_retries_then_raise_witness :
    SyncClient.request ⟨("T"), true, some 2⟩ (("/api/x").toList) ⟨none, [], false, false⟩
      (fun _ => (⟨429, some 3, 0⟩ : Response Nat)) =
      some ⟨some [(("Authorization"), ("T"))],
        some (("https://api.openrobot.xyz/api/x").toList), [3, 3], 2,
        Outcome.tooManyRequests ⟨429, some 3, 0⟩ 0⟩ := by
  have h := c4_bounded_429_retries_then_raise (β := Nat) ⟨("T"), true, some 2⟩
    (("/api/x").toList) ⟨none, [], false, false⟩ (fun _ => ⟨429, some 3, 0⟩) (fun _ => 3)
    [(("Authorization"), ("T"))] (("https://api.openrobot.xyz/api/x").toList) 2
    rfl rfl rfl (by decide) rfl (by decide) (fun j => ⟨rfl, rfl⟩)
  exact h.trans (by decide)

/-- C5: a 429 response with rate-limit handling enabled and no `Retry-After`
header makes dispatch raise the `KeyError` immediately: no sleep is performed
and no further request is attempted. -/
theorem c5_missing_retry_after_keyerror {β : Type} (c : SyncClient) (url : Str)
    (k : Kwargs) (server : Nat → Response β) (hs : Headers) (u : Str) (n : Int)
    (hm : mergeHeaders c k.headers = Except.ok hs)
    (hu : computeUrl url k.no_url_regex = Except.ok u)
    (ht : c.tries = some n) (hn : 0 < n)
    (hhr : c.handle_ratelimit = true)
    (h429 : (server 0).status_code = 429)
    (hro : (server 0).status_code ∉ k.return_on)
    (hra : (server 0).retryAfterHeader = none) :
    c.request url k server = some ⟨some hs, some u, [], 1, Outcome.keyErrorRetryAfter⟩ := by
  obtain ⟨m, hm2⟩ : ∃ m, n.toNat = m + 1 := ⟨n.toNat - 1, by omega⟩
  rw [h429] at hro
  simp only [SyncClient.request, hm, hu, ht, hm2]
  rw [requestLoop]
  simp [h429, hra, hro, hhr]

theorem c5_missing_retry_after_keyerror_witness :
    SyncClient.request ⟨("T"), true, some 5⟩ (("/api/x").toList) ⟨none, [], false, false⟩
      (fun _ => (⟨429, none, 0⟩ : Response Nat)) =
      some ⟨some [(("Authorization"), ("T"))],
        some (("https://api.openrobot.xyz/api/x").toList), [], 1,
        Outcome.keyErrorRetryAfter⟩ :=
  c5_missing_retry_after_keyerror ⟨("T"), true, some 5⟩ (("/api/x").toList)
    ⟨none, [], false, false⟩ (fun _ => ⟨429, none, 0⟩) [(("Authorization"), ("T"))]
    (("https://api.openrobot.xyz/api/x").toList) 5 rfl rfl rfl (by decide) rfl rfl
    (by decide) rfl

/-- C6: a 429 response with rate-limit handling disabled makes dispatch raise
`TooManyRequests` carrying that response and its decoded body immediately,
with no sleep and no further attempt. -/
theorem c6_429_no_handling_raises_immediately {β : Type} (c : SyncClient) (url : Str)
    (k : Kwargs) (server : Nat → Response β) (hs : Headers) (u : Str) (n : Int)
    (hm : mergeHeaders c k.headers = Except.ok hs)
    (hu : computeUrl url k.no_url_regex = Except.ok u)
    (ht : c.tries = some n) (hn : 0 < n)
    (hhr : c.handle_ratelimit = false)
    (h429 : (server 0).status_code = 429)
    (hro : (server 0).status_code ∉ k.return_on) :
    c.request url k server =
      some ⟨some hs, some u, [], 1, Outcome.tooManyRequests (server 0) (server 0).body⟩ := by
  obtain ⟨m, hm2⟩ : ∃ m, n.toNat = m + 1 := ⟨n.toNat - 1, by omega⟩
  rw [h429] at hro
  simp only [SyncClient.request, hm, hu, ht, hm2]
  rw [requestLoop]
  simp [h429, hro, hhr]

theorem c6_429_no_handling_raises_immediately_witness :
    SyncClient.request ⟨("T"), false, some 5⟩ (("/api/x").toList) ⟨none, [], false, false⟩
      (fun _ => (⟨429, some 3, 0⟩ : Response Nat)) =
      some ⟨some [(("Authorization"), ("T"))],
        some (("https://api.openrobot.xyz/api/x").toList), [], 1,
        Outcome.tooManyRequests ⟨429, some 3, 0⟩ 0⟩ :=
  c6_429_no_handling_raises_immediately ⟨("T"), false, some 5⟩ (("/api/x").toList)
    ⟨none, [], false, false⟩ (fun _ => ⟨429, some 3, 0⟩) [(("Authorization"), ("T"))]
    (("https://api.openrobot.xyz/api/x").toList) 5 rfl rfl rfl (by decide) rfl rfl
    (by decide)

/-- C7: a response with status 403, 400 or 500 that is not in the caller's
pass-through set makes dispatch raise `Forbidden`, `BadRequest` or
`InternalServerError` respectively, each carrying the response and its decoded
body. -/
theorem c7_typed_errors_403_400_500 {β : Type} (c : SyncClient) (url : Str)
    (k : Kwargs) (server : Nat → Response β) (hs : Headers) (u : Str) (n : Int)
    (hm : mergeHeaders c k.headers = Except.ok hs)
    (hu : computeUrl url k.no_url_regex = Except.ok u)
    (ht : c.tries = some n) (hn : 0 < n)
    (hro : (server 0).status_code ∉ k.return_on) :
    ((server 0).status_code = 403 →
      c.request url k server =
        some ⟨some hs, some u, [], 1, Outcome.forbidden (server 0) (server 0).body⟩) ∧
    ((server 0).status_code = 400 →
      c.request url k server =
        some ⟨some hs, some u, [], 1, Outcome.badRequest (server 0) (server 0).body⟩) ∧
    ((server 0).status_code = 500 →
      c.request url k server =
        some ⟨some hs, some u, [], 1, Outcome.internalServerError (server 0) (server 0).body⟩) := by
  obtain ⟨m, hm2⟩ : ∃ m, n.toNat = m + 1 := ⟨n.toNat - 1, by omega⟩
  refine ⟨fun h => ?_, fun h => ?_, fun h => ?_⟩ <;>
    rw [h] at hro <;>
    simp only [SyncClient.request, hm, hu, ht, hm2] <;>
    rw [requestLoop] <;>
    simp [h, hro]

theorem c7_typed_errors_403_400_500_witness :
    SyncClient.request ⟨("T"), true, some 5⟩ (("/api/x").toList) ⟨none, [], false, false⟩
      (fun _ => (⟨403, none, 7⟩ : Response Nat)) =
      some ⟨some [(("Authorization"), ("T"))],
        some (("https://api.openrobot.xyz/api/x").toList), [], 1,
        Outcome.forbidden ⟨403, none, 7⟩ 7⟩ :=
  (c7_typed_errors_403_400_500 ⟨("T"), true, some 5⟩ (("/api/x").toList)
    ⟨none, [], false, false⟩ (fun _ => ⟨403, none, 7⟩) [(("Authorization"), ("T"))]
    (("https://api.openrobot.xyz/api/x").toList) 5 rfl rfl rfl (by decide) (by decide)).1 rfl

/-- C8: a response whose status is in the caller's pass-through set, or lies
in [200, 300), makes dispatch return immediately (decoded body, or the raw
response when the raw flag is set), with no sleep and exactly one request;
pass-through membership carries no side conditions, so it takes precedence
over the 403/400/500/429 rules. -/
theorem c8_passthrough_and_2xx_return {β : Type} (c : SyncClient) (url : Str)
    (k : Kwargs) (server : Nat → Response β) (hs : Headers) (u : Str) (n : Int)
    (hm : mergeHeaders c k.headers = Except.ok hs)
    (hu : computeUrl url k.no_url_regex = Except.ok u)
    (ht : c.tries = some n) (hn : 0 < n)
    (h : (server 0).status_code ∈ k.return_on ∨
      (200 ≤ (server 0).status_code ∧ (server 0).status_code < 300)) :
    c.request url k server =
      some ⟨some hs, some u, [], 1,
        if k.raw then Outcome.raw (server 0) else Outcome.json (server 0).body⟩ := by
  obtain ⟨m, hm2⟩ : ∃ m, n.toNat = m + 1 := ⟨n.toNat - 1, by omega⟩
  simp only [SyncClient.request, hm, hu, ht, hm2]
  rw [requestLoop]
  rcases h with h | h
  · simp [h]
  · by_cases hmem : (server 0).status_code ∈ k.return_on
    · simp [hmem]
    · have h403 : ¬((server 0).status_code = 403) := by omega
      have h400 : ¬((server 0).status_code = 400) := by omega
      have h500 : ¬((server 0).status_code = 500) := by omega
      have h429 : ¬((server 0).status_code = 429) := by omega
      simp [hmem, h403, h400, h500, h429, h]

theorem c8_passthrough_and_2xx_return_witness :
    SyncClient.request ⟨("T"), true, some 5⟩ (("/api/x").toList) ⟨none, [429], false, false⟩
      (fun _ => (⟨429, none, 9⟩ : Response Nat)) =
      some ⟨some [(("Authorization"), ("T"))],
        some (("https://api.openrobot.xyz/api/x").toList), [], 1, Outcome.json 9⟩ := by
  have h := c8_passthrough_and_2xx_return (β := Nat) ⟨("T"), true, some 5⟩
    (("/api/x").toList) ⟨none, [429], false, false⟩ (fun _ => ⟨429, none, 9⟩)
    [(("Authorization"), ("T"))] (("https://api.openrobot.xyz/api/x").toList) 5
    rfl rfl rfl (by decide) (Or.inl (by decide))
  exact h.trans (by decide)

/-- C9: constructing with a falsy token (explicit `None` or empty) and no
discoverable file token raises `NoTokenProvided`; constructing with the
default placeholder `I-Am-Testing` without suppressing warnings emits the
warning yet succeeds, and the client stores that token. -/
theorem c9_construction (ft : Option String) :
    (∀ (token : Option String) (iw hrl : Bool) (tr : Option Int),
      pyTruthy token = false → pyTruthy ft = false →
      SyncClient.init token ft iw hrl tr = InitResult.noTokenProvided) ∧
    (∀ (hrl : Bool) (tr : Option Int),
      SyncClient.init (some ("I-Am-Testing")) ft false hrl tr =
        InitResult.ok true ⟨("I-Am-Testing"), hrl, tr⟩) := by
  constructor
  · intro token iw hrl tr h1 h2
    simp [SyncClient.init, h1, h2]
  · intro hrl tr
    simp [SyncClient.init, pyTruthy]

theorem c9_construction_witness :
    SyncClient.init none none false true (some 5) = InitResult.noTokenProvided ∧
    SyncClient.init (some ("I-Am-Testing")) none false true (some 5) =
      InitResult.ok true ⟨("I-Am-Testing"), true, some 5⟩ :=
  ⟨(c9_construction none).1 none false true (some 5) rfl rfl,
    (c9_construction none).2 true (some 5)⟩

/-- C10: with a configured tries value ≤ 0, the loop body never runs (zero
requests) and the final raise at line 138 references the never-assigned `r`
and `js`, failing with an unbound-name error instead of `TooManyRequests`. -/
theorem c10_nonpositive_tries_unbound_local {β : Type} (c : SyncClient) (url : Str)
    (k : Kwargs) (server : Nat → Response β) (hs : Headers) (u : Str) (n : Int)
    (hm : mergeHeaders c k.headers = Except.ok hs)
    (hu : computeUrl url k.no_url_regex = Except.ok u)
    (ht : c.tries = some n) (hn : n ≤ 0) :
    c.request url k server = some ⟨some hs, some u, [], 0, Outcome.nameErrorUnboundLocal⟩ := by
  have h0 : n.toNat = 0 := Int.toNat_of_nonpos hn
  simp only [SyncClient.request, hm, hu, ht, h0]
  rw [requestLoop]

theorem c10_nonpositive_tries_unbound_local_witness :
    SyncClient.request ⟨("T"), true, some 0⟩ (("/api/x").toList) ⟨none, [], false, false⟩
      (fun _ => (⟨200, none, 0⟩ : Response Nat)) =
      some ⟨some [(("Authorization"), ("T"))],
        some (("https://api.openrobot.xyz/api/x").toList), [], 0,
        Outcome.nameErrorUnboundLocal⟩ :=
  c10_nonpositive_tries_unbound_local ⟨("T"), true, some 0⟩ (("/api/x").toList)
    ⟨none, [], false, false⟩ (fun _ => ⟨200, none, 0⟩) [(("Authorization"), ("T"))]
    (("https://api.openrobot.xyz/api/x").toList) 0 rfl rfl rfl (by decide)

end OpenRobotAPI
